import Mathlib

/-!
# The asynchronous GCS tables of `src/ray/gcs/tables.h`

A shallow embedding of `Table<ID, Data>` (Add, Lookup, Subscribe) and of
`TaskTable::TestAndUpdate`, together with the two collaborators the header only
includes: the process-wide callback registry (`RedisCallbackManager`) and the
backing store client (`RedisContext`).

Conventions of the embedding.

* A caller's `std::function` is an opaque callable; what the table code does with
  it is to call it with arguments.  A callable is therefore a name, and calling
  it appends an `Invocation` (name and arguments) to the log of the process.
* A pointer is an `Option`: `none` is `nullptr`.
* The registry stores closures of type `const std::string & -> void`.  A closure
  is the function from the payload to the invocations it performs.
* `int64_t` callback indices are natural numbers (the registry hands out
  `0, 1, 2, ...`; the embedding covers processes with fewer than `2^63`
  registrations).
* All identifier types of the header (`JobID`, `ClientID`, `TaskID`, ...) are the
  same `UniqueID`; they are one type parameter `ID`.
* The tables of a process share one store client, kept in `World.context`.
* The store publishes nothing by itself here: the payloads delivered to a
  subscription are an input of the statements about subscriptions.
-/

namespace ray
namespace gcs

/-! ## Data model -/

/-- Contents of a `std::string` / byte buffer. -/
abbrev Bytes := List Nat

/-- Modelled from the spec: `ray/status.h` is not part of the sources.  A status is
either OK or a failure carrying a code and a message; `ok()` holds exactly for
`Status::OK()`. -/
inductive Status where
  | OK : Status
  | Failure (code : Nat) (msg : String) : Status
  deriving DecidableEq, Repr

/-- The `Status::ok()` test. -/
def Status.ok : Status → Bool
  | Status.OK => true
  | Status.Failure _ _ => false

/-- The macro `RAY_RETURN_NOT_OK(s); rest`: leave the function with `s` when `s` is
not OK, continue with `rest` otherwise. -/
def RAY_RETURN_NOT_OK (s : Status) (rest : Status) : Status :=
  if s.ok then rest else s

/-- Modelled from the spec: the enum `TablePubsub` of `gcs_generated.h` (absent), the
pub/sub channel categories "none, object, task, node". -/
inductive TablePubsub where
  | NO_PUBLISH
  | TASK
  | CLIENT
  | OBJECT
  deriving DecidableEq, Repr

/-- An `AsyncGcsClient *`; `none` is the null pointer. -/
abbrev AsyncGcsClientPtr := Option Nat

/-- A caller-supplied `Table::Callback`, identified by name. -/
structure Callback where
  fn : Nat
  deriving DecidableEq, Repr

/-- A caller-supplied `TaskTable::TestAndUpdateCallback`, identified by name. -/
structure TestAndUpdateCallback where
  fn : Nat
  deriving DecidableEq, Repr

/-- One call of a caller-supplied callable, with its arguments.
`call` is `callback(client, id, data)` for a `Table::Callback` (`data` is a
`std::shared_ptr<DataT>`, possibly null); `callTestAndUpdate` is
`callback(client, id, task, updated)` for a `TestAndUpdateCallback`. -/
inductive Invocation (ID DataT : Type) where
  | call (callback : Callback) (client : AsyncGcsClientPtr) (id : ID)
      (data : Option DataT) : Invocation ID DataT
  | callTestAndUpdate (callback : TestAndUpdateCallback) (client : AsyncGcsClientPtr)
      (id : ID) (task : DataT) (updated : Bool) : Invocation ID DataT
  deriving DecidableEq, Repr

/-- The record schema `Data` of a table: `Data::Pack` serialises a native record,
`flatbuffers::GetRoot<Data>(bytes)->UnPackTo(result)` reads one back. -/
structure Schema (DataT : Type) where
  Pack : DataT → Bytes
  UnPack : Bytes → DataT

/-- The members of `Table<ID, Data>` that the operations read.  (`context_` is the
shared store client held by the process, see `World`; `callback_data_` is never
accessed by any operation of the header.) -/
structure Table where
  client_ : AsyncGcsClientPtr
  pubsub_channel_ : TablePubsub
  deriving DecidableEq, Repr

/-- The struct `Table::CallbackData`. -/
structure CallbackData (ID DataT : Type) where
  id : ID
  data : Option DataT
  callback : Callback
  table : Option Table
  client : AsyncGcsClientPtr

/-- The constructor `Table(context, client)`. -/
def Table.new (client : AsyncGcsClientPtr) : Table :=
  { client_ := client, pubsub_channel_ := TablePubsub.NO_PUBLISH }

/-- The constructor `ObjectTable(context, client)`: the base constructor, then the
assignment `pubsub_channel_ = TablePubsub_OBJECT`. -/
def ObjectTable.new (client : AsyncGcsClientPtr) : Table :=
  { Table.new client with pubsub_channel_ := TablePubsub.OBJECT }

/-- The constructor `TaskTable(context, client)`: the base constructor, then the
assignment `pubsub_channel_ = TablePubsub_TASK`. -/
def TaskTable.new (client : AsyncGcsClientPtr) : Table :=
  { Table.new client with pubsub_channel_ := TablePubsub.TASK }

/-! ## The callback registry and the store client -/

/-- A registered `RedisCallback`: the invocations it performs on a payload. -/
abbrev RedisCallback (ID DataT : Type) := Bytes → List (Invocation ID DataT)

/-- Modelled from the spec: `RedisCallbackManager` (declared in the absent
`redis_context.h`).  It holds the next unused index and the stored callbacks. -/
structure RedisCallbackManager (ID DataT : Type) where
  num_callbacks : Nat
  callbacks : Nat → Option (RedisCallback ID DataT)

/-- Modelled from the spec: `Register(callback) -> index`; assigns the next unused
index, stores the callback under it and returns the index.  It never fails. -/
def RedisCallbackManager.add {ID DataT : Type} (m : RedisCallbackManager ID DataT)
    (function : RedisCallback ID DataT) : Nat × RedisCallbackManager ID DataT :=
  (m.num_callbacks,
   { num_callbacks := m.num_callbacks + 1,
     callbacks := fun i => if i = m.num_callbacks then some function else m.callbacks i })

/-- Modelled from the spec: the lookup of a stored callback by index. -/
def RedisCallbackManager.get {ID DataT : Type} (m : RedisCallbackManager ID DataT)
    (callback_index : Nat) : Option (RedisCallback ID DataT) :=
  m.callbacks callback_index

/-- Modelled from the spec: removal of a one-shot entry after its single invocation. -/
def RedisCallbackManager.remove {ID DataT : Type} (m : RedisCallbackManager ID DataT)
    (callback_index : Nat) : RedisCallbackManager ID DataT :=
  { m with callbacks := fun i => if i = callback_index then none else m.callbacks i }

/-- What a table hands to the store client: the arguments of
`RedisContext::RunAsync(command, id, data, length, pubsub_channel, callback_index)`
or of `RedisContext::SubscribeAsync(client_id, pubsub_channel, callback_index)`. -/
inductive Submission (ID : Type) where
  | RunAsync (command : String) (id : ID) (data : Bytes) (pubsub_channel : TablePubsub)
      (callback_index : Nat) : Submission ID
  | SubscribeAsync (client_id : ID) (pubsub_channel : TablePubsub)
      (callback_index : Nat) : Submission ID
  deriving DecidableEq, Repr

/-- The pub/sub channel a submission carries. -/
def Submission.pubsub_channel {ID : Type} : Submission ID → TablePubsub
  | Submission.RunAsync _ _ _ c _ => c
  | Submission.SubscribeAsync _ c _ => c

/-- The callback index a submission carries. -/
def Submission.callback_index {ID : Type} : Submission ID → Nat
  | Submission.RunAsync _ _ _ _ i => i
  | Submission.SubscribeAsync _ _ i => i

/-- Modelled from the spec: the backing store client `RedisContext` (absent).  Whether
it accepts a submission is outside the table code, so it is a field: `verdict` is
the status the client returns for a submission (a failure when, e.g., it is not
connected).  `submitted` lists the submissions accepted so far, oldest first. -/
structure RedisContext (ID : Type) where
  verdict : Submission ID → Status
  submitted : List (Submission ID)

/-- Modelled from the spec: `SubmitCommand` / `SubscribeChannel`; returns the client's
status for the submission and records the submission when it is accepted. -/
def RedisContext.submit {ID : Type} (c : RedisContext ID) (s : Submission ID) :
    Status × RedisContext ID :=
  (c.verdict s,
   if (c.verdict s).ok then { c with submitted := c.submitted ++ [s] } else c)

/-- The method `RedisContext::RunAsync`. -/
def RedisContext.RunAsync {ID : Type} (c : RedisContext ID) (command : String) (id : ID)
    (data : Bytes) (pubsub_channel : TablePubsub) (callback_index : Nat) :
    Status × RedisContext ID :=
  c.submit (Submission.RunAsync command id data pubsub_channel callback_index)

/-- The method `RedisContext::SubscribeAsync`. -/
def RedisContext.SubscribeAsync {ID : Type} (c : RedisContext ID) (client_id : ID)
    (pubsub_channel : TablePubsub) (callback_index : Nat) : Status × RedisContext ID :=
  c.submit (Submission.SubscribeAsync client_id pubsub_channel callback_index)

/-- The state of one process: the registry singleton, the store client shared by its
tables, and the log of the calls made to caller-supplied callables. -/
structure World (ID DataT : Type) where
  registry : RedisCallbackManager ID DataT
  context : RedisContext ID
  log : List (Invocation ID DataT)

/-! ## `Table<ID, Data>` -/

/-- The closure registered by `Table::Add`: `(d->callback)(d->client, d->id, d->data)`;
the payload is not read. -/
def Table.AddCallback {ID DataT : Type} (d : CallbackData ID DataT) : RedisCallback ID DataT :=
  fun _ => [Invocation.call d.callback d.client d.id d.data]

/-- The method `Table::Add`.  `data` is dereferenced by `Data::Pack`, so it is a
non-null record. -/
def Table.Add {ID DataT : Type} (S : Schema DataT) (t : Table) (_job_id : ID) (id : ID)
    (data : DataT) (done : Callback) (w : World ID DataT) : Status × World ID DataT :=
  let d : CallbackData ID DataT :=
    { id := id, data := some data, callback := done, table := some t, client := t.client_ }
  let r := w.registry.add (Table.AddCallback d)
  let callback_index := r.1
  let fbb := S.Pack data
  let sent := w.context.RunAsync "RAY.TABLE_ADD" id fbb t.pubsub_channel_ callback_index
  (RAY_RETURN_NOT_OK sent.1 Status.OK, { w with registry := r.2, context := sent.2 })

/-- The closure registered by `Table::Lookup`: unpack the payload into a fresh record
and call `(d->callback)(d->client, d->id, result)`. -/
def Table.LookupCallback {ID DataT : Type} (S : Schema DataT) (d : CallbackData ID DataT) :
    RedisCallback ID DataT :=
  fun data =>
    let result := S.UnPack data
    [Invocation.call d.callback d.client d.id (some result)]

/-- The method `Table::Lookup`.  `CallbackData({id, nullptr, lookup, this})` names four
of the five members; the fifth, `client`, is value-initialised to the null
pointer. -/
def Table.Lookup {ID DataT : Type} (S : Schema DataT) (t : Table) (_job_id : ID) (id : ID)
    (lookup : Callback) (w : World ID DataT) : Status × World ID DataT :=
  let d : CallbackData ID DataT :=
    { id := id, data := none, callback := lookup, table := some t, client := none }
  let r := w.registry.add (Table.LookupCallback S d)
  let callback_index := r.1
  let nil_ : Bytes := []
  let sent := w.context.RunAsync "RAY.TABLE_LOOKUP" id nil_ t.pubsub_channel_ callback_index
  (RAY_RETURN_NOT_OK sent.1 Status.OK, { w with registry := r.2, context := sent.2 })

/-- The closure registered by `Table::Subscribe`: on an empty payload call
`done(d->client, d->id, nullptr)`, otherwise unpack the payload and call
`(d->callback)(d->client, d->id, result)`. -/
def Table.SubscribeCallback {ID DataT : Type} (S : Schema DataT) (done : Callback)
    (d : CallbackData ID DataT) : RedisCallback ID DataT :=
  fun data =>
    if data.isEmpty then
      [Invocation.call done d.client d.id none]
    else
      let result := S.UnPack data
      [Invocation.call d.callback d.client d.id (some result)]

/-- The method `Table::Subscribe`; the status of `SubscribeAsync` is returned as is. -/
def Table.Subscribe {ID DataT : Type} (S : Schema DataT) (t : Table) (_job_id : ID)
    (client_id : ID) (subscribe : Callback) (done : Callback) (w : World ID DataT) :
    Status × World ID DataT :=
  let d : CallbackData ID DataT :=
    { id := client_id, data := none, callback := subscribe, table := some t, client := none }
  let r := w.registry.add (Table.SubscribeCallback S done d)
  let callback_index := r.1
  let sent := w.context.SubscribeAsync client_id t.pubsub_channel_ callback_index
  (sent.1, { w with registry := r.2, context := sent.2 })

/-! ## `TaskTable` -/

/-- Modelled from the spec: the native record `TaskTableDataT` of `gcs_generated.h`
(absent): the scheduling-state bitfield, the owning scheduler, the task
specification, and the `updated` flag that a test-and-update reply carries. -/
structure TaskTableDataT (ID : Type) where
  scheduling_state : Nat
  scheduler_id : ID
  task_info : Bytes
  updated : Bool
  deriving DecidableEq, Repr

/-- Modelled from the spec: the native record `TaskTableTestAndUpdateT` of
`gcs_generated.h` (absent): the caller (recorded as the new owning scheduler), the
test bitmask and the state to write; compare the parameters of the declaration
`TaskTableTestAndUpdate(gcs_client, task_id, local_scheduler_id,
test_state_bitmask, update_state, callback)`. -/
structure TaskTableTestAndUpdateT (ID : Type) where
  local_scheduler_id : ID
  test_state_bitmask : Nat
  update_state : Nat
  deriving DecidableEq, Repr

/-- The closure registered by `TaskTable::TestAndUpdate`, capturing `this` (here
`table`), `callback` and `id`: unpack the payload and call
`callback(client_, id, *result, root->updated())`. -/
def TaskTable.TestAndUpdateClosure {ID : Type} (S : Schema (TaskTableDataT ID)) (table : Table)
    (callback : TestAndUpdateCallback) (id : ID) : RedisCallback ID (TaskTableDataT ID) :=
  fun data =>
    let result := S.UnPack data
    let root := S.UnPack data
    [Invocation.callTestAndUpdate callback table.client_ id result root.updated]

/-- The method `TaskTable::TestAndUpdate`.  `data` is dereferenced by
`TaskTableTestAndUpdate::Pack`, so it is a non-null record. -/
def TaskTable.TestAndUpdate {ID : Type} (S : Schema (TaskTableDataT ID))
    (U : Schema (TaskTableTestAndUpdateT ID)) (t : Table) (_job_id : ID) (id : ID)
    (data : TaskTableTestAndUpdateT ID) (callback : TestAndUpdateCallback)
    (w : World ID (TaskTableDataT ID)) : Status × World ID (TaskTableDataT ID) :=
  let r := w.registry.add (TaskTable.TestAndUpdateClosure S t callback id)
  let callback_index := r.1
  let fbb := U.Pack data
  let sent :=
    w.context.RunAsync "RAY.TABLE_TEST_AND_UPDATE" id fbb t.pubsub_channel_ callback_index
  (RAY_RETURN_NOT_OK sent.1 Status.OK, { w with registry := r.2, context := sent.2 })

/-! ## Completion: the store client dispatching a callback index -/

/-- Modelled from the spec: `Dispatch(index, payload)`; looks up the stored callback by
index and invokes it with the payload; nothing happens when no entry exists. -/
def World.Dispatch {ID DataT : Type} (w : World ID DataT) (callback_index : Nat)
    (payload : Bytes) : World ID DataT :=
  match w.registry.get callback_index with
  | none => w
  | some function => { w with log := w.log ++ function payload }

/-- Modelled from the spec: delivery of the reply to a command (one-shot entry): the
callback is dispatched, then its entry is removed from the registry. -/
def World.deliverReply {ID DataT : Type} (w : World ID DataT) (callback_index : Nat)
    (payload : Bytes) : World ID DataT :=
  let w1 := w.Dispatch callback_index payload
  { w1 with registry := w1.registry.remove callback_index }

/-- Modelled from the spec: delivery of one event of a subscription (persistent entry):
the callback is dispatched and stays registered. -/
def World.deliverEvent {ID DataT : Type} (w : World ID DataT) (callback_index : Nat)
    (payload : Bytes) : World ID DataT :=
  w.Dispatch callback_index payload

/-- Deliveries of a list of events to one subscription, in order. -/
def World.deliverEvents {ID DataT : Type} (w : World ID DataT) (callback_index : Nat) :
    List Bytes → World ID DataT
  | [] => w
  | payload :: rest => (w.deliverEvent callback_index payload).deliverEvents callback_index rest

/-! ## The backing store -/

/-- Modelled from the spec: the rows of one table in the backing store, the bytes last
written under each id. -/
structure Store (ID : Type) where
  rows : ID → Option Bytes

/-- Modelled from the spec: a write of `data` under `id`. -/
def Store.write {ID : Type} [DecidableEq ID] (st : Store ID) (id : ID) (data : Bytes) :
    Store ID :=
  { rows := fun k => if k = id then some data else st.rows k }

/-- Modelled from the spec: the store executing a WRITE or a READ command; the result is
the new store and the reply bytes ("empty bytes for a plain acknowledgment"; a
read of an id never written is answered with empty bytes). -/
def Store.command {ID : Type} [DecidableEq ID] (st : Store ID) (command : String) (id : ID)
    (data : Bytes) : Store ID × Bytes :=
  if command = "RAY.TABLE_ADD" then (st.write id data, [])
  else if command = "RAY.TABLE_LOOKUP" then (st, (st.rows id).getD [])
  else (st, [])

/-- Modelled from the spec: the conditional update of §4.4 on a decoded record.  With
`current` the record's scheduling state, the update applies `update_state` and
records the caller as owning scheduler iff `(current & test_bitmask) != 0`;
otherwise the record is left unchanged.  The flag tells the two outcomes apart. -/
def TaskTableDataT.testAndUpdate {ID : Type} (current : TaskTableDataT ID)
    (update : TaskTableTestAndUpdateT ID) : TaskTableDataT ID × Bool :=
  if current.scheduling_state &&& update.test_state_bitmask ≠ 0 then
    ({ current with scheduling_state := update.update_state,
                    scheduler_id := update.local_scheduler_id }, true)
  else
    (current, false)

/-- Modelled from the spec: the store of the task table executing a command.  A
CONDITIONAL_UPDATE decodes the row and the request, applies `testAndUpdate`,
writes the record back when it was updated, and replies with the resulting
record carrying the `updated` flag; other commands are those of `Store.command`. -/
def Store.taskCommand {ID : Type} [DecidableEq ID] (S : Schema (TaskTableDataT ID))
    (U : Schema (TaskTableTestAndUpdateT ID)) (st : Store ID) (command : String) (id : ID)
    (data : Bytes) : Store ID × Bytes :=
  if command = "RAY.TABLE_TEST_AND_UPDATE" then
    match st.rows id with
    | none => (st, [])
    | some row =>
      let outcome := (S.UnPack row).testAndUpdate (U.UnPack data)
      let reply := S.Pack { outcome.1 with updated := outcome.2 }
      (if outcome.2 then st.write id (S.Pack outcome.1) else st, reply)
  else st.command command id data

/-- Modelled from the spec: the store serving one accepted submission.  A command is
executed and its reply dispatched to the callback index of the submission
(one-shot); a subscription is answered with one empty-payload event (the
installation event). -/
def serve {ID DataT : Type} (exec : Store ID → String → ID → Bytes → Store ID × Bytes)
    (s : Submission ID) (st : Store ID) (w : World ID DataT) : Store ID × World ID DataT :=
  match s with
  | Submission.RunAsync command id data _ callback_index =>
    let r := exec st command id data
    (r.1, w.deliverReply callback_index r.2)
  | Submission.SubscribeAsync _ _ callback_index =>
    (st, w.deliverEvent callback_index [])

/-! ## Sequences of operations on one table -/

/-- One call of an operation of `Table<ID, Data>`. -/
inductive Call (ID DataT : Type) where
  | Add (job_id : ID) (id : ID) (data : DataT) (done : Callback) : Call ID DataT
  | Lookup (job_id : ID) (id : ID) (lookup : Callback) : Call ID DataT
  | Subscribe (job_id : ID) (client_id : ID) (subscribe : Callback) (done : Callback) :
      Call ID DataT

/-- Performing one call on table `t`. -/
def Table.perform {ID DataT : Type} (S : Schema DataT) (t : Table) (c : Call ID DataT)
    (w : World ID DataT) : Status × World ID DataT :=
  match c with
  | Call.Add job_id id data done => Table.Add S t job_id id data done w
  | Call.Lookup job_id id lookup => Table.Lookup S t job_id id lookup w
  | Call.Subscribe job_id client_id subscribe done =>
    Table.Subscribe S t job_id client_id subscribe done w

/-- One call of an operation of `TaskTable`: an inherited one, or `TestAndUpdate`. -/
inductive TaskCall (ID : Type) where
  | base (c : Call ID (TaskTableDataT ID)) : TaskCall ID
  | TestAndUpdate (job_id : ID) (id : ID) (data : TaskTableTestAndUpdateT ID)
      (callback : TestAndUpdateCallback) : TaskCall ID

/-- Performing one call on task table `t`. -/
def TaskTable.perform {ID : Type} (S : Schema (TaskTableDataT ID))
    (U : Schema (TaskTableTestAndUpdateT ID)) (t : Table) (c : TaskCall ID)
    (w : World ID (TaskTableDataT ID)) : Status × World ID (TaskTableDataT ID) :=
  match c with
  | TaskCall.base c => Table.perform S t c w
  | TaskCall.TestAndUpdate job_id id data callback =>
    TaskTable.TestAndUpdate S U t job_id id data callback w

/-- Performing the calls of a list on task table `t`, in order, whatever their
statuses. -/
def TaskTable.run {ID : Type} (S : Schema (TaskTableDataT ID))
    (U : Schema (TaskTableTestAndUpdateT ID)) (t : Table) :
    List (TaskCall ID) → World ID (TaskTableDataT ID) → World ID (TaskTableDataT ID)
  | [], w => w
  | c :: rest, w => TaskTable.run S U t rest (TaskTable.perform S U t c w).2

/-- Performing the calls of a list on table `t`, in order, whatever their statuses. -/
def Table.run {ID DataT : Type} (S : Schema DataT) (t : Table) :
    List (Call ID DataT) → World ID DataT → World ID DataT
  | [], w => w
  | c :: rest, w => Table.run S t rest (Table.perform S t c w).2

/-- Modelled from the spec: the store serving the submission accepted last. -/
def serveLast {ID DataT : Type} (exec : Store ID → String → ID → Bytes → Store ID × Bytes)
    (st : Store ID) (w : World ID DataT) : Store ID × World ID DataT :=
  match w.context.submitted.getLast? with
  | none => (st, w)
  | some s => serve exec s st w

/-- Modelled from the spec: `TestAndUpdate` on a task table followed by the store
serving the submission accepted last, from a store and a process. -/
def TaskTable.TestAndUpdateServed {ID : Type} [DecidableEq ID] (S : Schema (TaskTableDataT ID))
    (U : Schema (TaskTableTestAndUpdateT ID)) (t : Table) (job_id : ID) (id : ID)
    (data : TaskTableTestAndUpdateT ID) (callback : TestAndUpdateCallback)
    (p : Store ID × World ID (TaskTableDataT ID)) : Store ID × World ID (TaskTableDataT ID) :=
  serveLast (Store.taskCommand S U) p.1
    (TaskTable.TestAndUpdate S U t job_id id data callback p.2).2

/-! ## Test fixtures

A concrete instance used to evaluate the operations: ids and records are natural
numbers, a record is encoded as a one-byte string. -/

/-- Test fixture: the schema of a table whose records are natural numbers. -/
def natSchema : Schema Nat :=
  { Pack := fun n => [n], UnPack := fun b => b.headD 0 }

/-- Test fixture: a schema for task records (state, scheduler, flag, then the task
specification). -/
def taskSchema : Schema (TaskTableDataT Nat) :=
  { Pack := fun r =>
      r.scheduling_state :: r.scheduler_id :: (if r.updated then 1 else 0) :: r.task_info,
    UnPack := fun b =>
      match b with
      | s :: o :: u :: info =>
        { scheduling_state := s, scheduler_id := o, task_info := info, updated := decide (u ≠ 0) }
      | _ => { scheduling_state := 0, scheduler_id := 0, task_info := [], updated := false } }

/-- Test fixture: a schema for test-and-update requests. -/
def updateSchema : Schema (TaskTableTestAndUpdateT Nat) :=
  { Pack := fun u => [u.local_scheduler_id, u.test_state_bitmask, u.update_state],
    UnPack := fun b =>
      match b with
      | [c, m, s] => { local_scheduler_id := c, test_state_bitmask := m, update_state := s }
      | _ => { local_scheduler_id := 0, test_state_bitmask := 0, update_state := 0 } }

/-- Test fixture: a fresh process whose store client accepts every submission. -/
def connectedWorld (DataT : Type) : World Nat DataT :=
  { registry := { num_callbacks := 0, callbacks := fun _ => none },
    context := { verdict := fun _ => Status.OK, submitted := [] },
    log := [] }

/-- Test fixture: a fresh process whose store client rejects every submission. -/
def disconnectedWorld (DataT : Type) : World Nat DataT :=
  { registry := { num_callbacks := 0, callbacks := fun _ => none },
    context := { verdict := fun _ => Status.Failure 1 "not connected", submitted := [] },
    log := [] }

/-- Test fixture: a store with no rows. -/
def emptyStore : Store Nat :=
  { rows := fun _ => none }

/-! ## Auxiliary facts -/

theorem RAY_RETURN_NOT_OK_OK (s : Status) : RAY_RETURN_NOT_OK s Status.OK = s := by
  cases s <;> rfl

theorem Status.ok_iff (s : Status) : s.ok = true ↔ s = Status.OK := by
  cases s <;> simp [Status.ok]

theorem Dispatch_log_of_get {ID DataT : Type} (w : World ID DataT) (i : Nat) (payload : Bytes)
    (f : RedisCallback ID DataT) (h : w.registry.get i = some f) :
    (w.Dispatch i payload).log = w.log ++ f payload := by
  simp [World.Dispatch, h]

theorem deliverReply_log {ID DataT : Type} (w : World ID DataT) (i : Nat) (payload : Bytes) :
    (w.deliverReply i payload).log = (w.Dispatch i payload).log := rfl

theorem get_add_self {ID DataT : Type} (m : RedisCallbackManager ID DataT)
    (f : RedisCallback ID DataT) : (m.add f).2.get m.num_callbacks = some f := by
  simp [RedisCallbackManager.add, RedisCallbackManager.get]

theorem get_add_other {ID DataT : Type} (m : RedisCallbackManager ID DataT)
    (f : RedisCallback ID DataT) (i : Nat) (h : i ≠ m.num_callbacks) :
    (m.add f).2.get i = m.get i := by
  simp [RedisCallbackManager.add, RedisCallbackManager.get, h]

theorem Dispatch_registry {ID DataT : Type} (w : World ID DataT) (i : Nat) (payload : Bytes) :
    (w.Dispatch i payload).registry = w.registry := by
  unfold World.Dispatch
  split <;> rfl

theorem Dispatch_context {ID DataT : Type} (w : World ID DataT) (i : Nat) (payload : Bytes) :
    (w.Dispatch i payload).context = w.context := by
  unfold World.Dispatch
  split <;> rfl

theorem SubscribeCallback_apply {ID DataT : Type} (S : Schema DataT) (done : Callback)
    (d : CallbackData ID DataT) (payload : Bytes) :
    Table.SubscribeCallback S done d payload
      = [if payload = [] then Invocation.call done d.client d.id none
         else Invocation.call d.callback d.client d.id (some (S.UnPack payload))] := by
  cases payload <;> simp [Table.SubscribeCallback]

theorem deliverEvents_log {ID DataT : Type} (f : RedisCallback ID DataT)
    (g : Bytes → Invocation ID DataT) (hf : ∀ p, f p = [g p]) (i : Nat) (payloads : List Bytes) :
    ∀ w : World ID DataT, w.registry.get i = some f →
      (w.deliverEvents i payloads).log = w.log ++ payloads.map g := by
  induction payloads with
  | nil => intro w _; simp [World.deliverEvents]
  | cons p rest ih =>
    intro w hw
    have h1 : (w.deliverEvent i p).registry.get i = some f := by
      unfold World.deliverEvent
      rw [Dispatch_registry]; exact hw
    have h2 : (w.deliverEvent i p).log = w.log ++ [g p] := by
      unfold World.deliverEvent
      rw [Dispatch_log_of_get _ _ _ _ hw, hf]
    simp only [World.deliverEvents]
    rw [ih _ h1, h2]
    simp

theorem perform_submitted {ID DataT : Type} (S : Schema DataT) (t : Table)
    (c : Call ID DataT) (w : World ID DataT) :
    ∃ fresh : List (Submission ID),
      (Table.perform S t c w).2.context.submitted = w.context.submitted ++ fresh
        ∧ ∀ s ∈ fresh, s.pubsub_channel = t.pubsub_channel_ := by
  cases c with
  | Add job_id id data done =>
    by_cases h : (w.context.verdict (Submission.RunAsync "RAY.TABLE_ADD" id (S.Pack data)
        t.pubsub_channel_ w.registry.num_callbacks)).ok = true
    · exact ⟨[Submission.RunAsync "RAY.TABLE_ADD" id (S.Pack data) t.pubsub_channel_
          w.registry.num_callbacks],
        by simp [Table.perform, Table.Add, RedisContext.RunAsync, RedisContext.submit,
          RedisCallbackManager.add, h],
        by simp [Submission.pubsub_channel]⟩
    · exact ⟨[], by simp [Table.perform, Table.Add, RedisContext.RunAsync,
          RedisContext.submit, RedisCallbackManager.add, h], by simp⟩
  | Lookup job_id id lookup =>
    by_cases h : (w.context.verdict (Submission.RunAsync "RAY.TABLE_LOOKUP" id []
        t.pubsub_channel_ w.registry.num_callbacks)).ok = true
    · exact ⟨[Submission.RunAsync "RAY.TABLE_LOOKUP" id [] t.pubsub_channel_
          w.registry.num_callbacks],
        by simp [Table.perform, Table.Lookup, RedisContext.RunAsync, RedisContext.submit,
          RedisCallbackManager.add, h],
        by simp [Submission.pubsub_channel]⟩
    · exact ⟨[], by simp [Table.perform, Table.Lookup, RedisContext.RunAsync,
          RedisContext.submit, RedisCallbackManager.add, h], by simp⟩
  | Subscribe job_id client_id subscribe done =>
    by_cases h : (w.context.verdict (Submission.SubscribeAsync client_id
        t.pubsub_channel_ w.registry.num_callbacks)).ok = true
    · exact ⟨[Submission.SubscribeAsync client_id t.pubsub_channel_
          w.registry.num_callbacks],
        by simp [Table.perform, Table.Subscribe, RedisContext.SubscribeAsync,
          RedisContext.submit, RedisCallbackManager.add, h],
        by simp [Submission.pubsub_channel]⟩
    · exact ⟨[], by simp [Table.perform, Table.Subscribe, RedisContext.SubscribeAsync,
          RedisContext.submit, RedisCallbackManager.add, h], by simp⟩

theorem taskPerform_submitted {ID : Type} (S : Schema (TaskTableDataT ID))
    (U : Schema (TaskTableTestAndUpdateT ID)) (t : Table) (c : TaskCall ID)
    (w : World ID (TaskTableDataT ID)) :
    ∃ fresh : List (Submission ID),
      (TaskTable.perform S U t c w).2.context.submitted = w.context.submitted ++ fresh
        ∧ ∀ s ∈ fresh, s.pubsub_channel = t.pubsub_channel_ := by
  cases c with
  | base c => exact perform_submitted S t c w
  | TestAndUpdate job_id id data callback =>
    by_cases h : (w.context.verdict (Submission.RunAsync "RAY.TABLE_TEST_AND_UPDATE" id
        (U.Pack data) t.pubsub_channel_ w.registry.num_callbacks)).ok = true
    · exact ⟨[Submission.RunAsync "RAY.TABLE_TEST_AND_UPDATE" id (U.Pack data)
          t.pubsub_channel_ w.registry.num_callbacks],
        by simp [TaskTable.perform, TaskTable.TestAndUpdate, RedisContext.RunAsync,
          RedisContext.submit, RedisCallbackManager.add, h],
        by simp [Submission.pubsub_channel]⟩
    · exact ⟨[], by simp [TaskTable.perform, TaskTable.TestAndUpdate, RedisContext.RunAsync,
          RedisContext.submit, RedisCallbackManager.add, h], by simp⟩

theorem run_submitted {ID DataT : Type} (S : Schema DataT) (t : Table)
    (calls : List (Call ID DataT)) :
    ∀ w : World ID DataT, ∃ fresh : List (Submission ID),
      (Table.run S t calls w).context.submitted = w.context.submitted ++ fresh
        ∧ ∀ s ∈ fresh, s.pubsub_channel = t.pubsub_channel_ := by
  induction calls with
  | nil => intro w; exact ⟨[], by simp [Table.run], by simp⟩
  | cons c rest ih =>
    intro w
    obtain ⟨f1, h1, g1⟩ := perform_submitted S t c w
    obtain ⟨f2, h2, g2⟩ := ih (Table.perform S t c w).2
    refine ⟨f1 ++ f2, ?_, ?_⟩
    · simp only [Table.run]
      rw [h2, h1, List.append_assoc]
    · intro s hs
      rcases List.mem_append.mp hs with h | h
      · exact g1 s h
      · exact g2 s h

theorem taskRun_submitted {ID : Type} (S : Schema (TaskTableDataT ID))
    (U : Schema (TaskTableTestAndUpdateT ID)) (t : Table) (calls : List (TaskCall ID)) :
    ∀ w : World ID (TaskTableDataT ID), ∃ fresh : List (Submission ID),
      (TaskTable.run S U t calls w).context.submitted = w.context.submitted ++ fresh
        ∧ ∀ s ∈ fresh, s.pubsub_channel = t.pubsub_channel_ := by
  induction calls with
  | nil => intro w; exact ⟨[], by simp [TaskTable.run], by simp⟩
  | cons c rest ih =>
    intro w
    obtain ⟨f1, h1, g1⟩ := taskPerform_submitted S U t c w
    obtain ⟨f2, h2, g2⟩ := ih (TaskTable.perform S U t c w).2
    refine ⟨f1 ++ f2, ?_, ?_⟩
    · simp only [TaskTable.run]
      rw [h2, h1, List.append_assoc]
    · intro s hs
      rcases List.mem_append.mp hs with h | h
      · exact g1 s h
      · exact g2 s h

theorem submit_rejected {ID : Type} (c : RedisContext ID) (s : Submission ID)
    (h : (c.verdict s).ok = false) : (c.submit s).2 = c := by
  simp [RedisContext.submit, h]

theorem submit_accepted {ID : Type} (c : RedisContext ID) (s : Submission ID)
    (h : c.verdict s = Status.OK) :
    (c.submit s).2 = { c with submitted := c.submitted ++ [s] } := by
  simp [RedisContext.submit, h, Status.ok]

theorem perform_rejected {ID DataT : Type} (S : Schema DataT) (t : Table)
    (c : Call ID DataT) (w : World ID DataT) (h : (Table.perform S t c w).1.ok = false) :
    (Table.perform S t c w).2.context = w.context := by
  cases c with
  | Add job_id id data done =>
    simp only [Table.perform, Table.Add, RAY_RETURN_NOT_OK_OK] at h ⊢
    exact submit_rejected _ _ h
  | Lookup job_id id lookup =>
    simp only [Table.perform, Table.Lookup, RAY_RETURN_NOT_OK_OK] at h ⊢
    exact submit_rejected _ _ h
  | Subscribe job_id client_id subscribe done =>
    simp only [Table.perform, Table.Subscribe] at h ⊢
    exact submit_rejected _ _ h

theorem perform_registry {ID DataT : Type} (S : Schema DataT) (t : Table)
    (c : Call ID DataT) (w : World ID DataT) :
    ∃ f, (Table.perform S t c w).2.registry = (w.registry.add f).2 := by
  cases c with
  | Add job_id id data done => exact ⟨_, rfl⟩
  | Lookup job_id id lookup => exact ⟨_, rfl⟩
  | Subscribe job_id client_id subscribe done => exact ⟨_, rfl⟩

theorem perform_log {ID DataT : Type} (S : Schema DataT) (t : Table)
    (c : Call ID DataT) (w : World ID DataT) : (Table.perform S t c w).2.log = w.log := by
  cases c <;> rfl

theorem Add_deliverReply_log {ID DataT : Type} (S : Schema DataT) (t : Table)
    (job_id id : ID) (data : DataT) (done : Callback) (w : World ID DataT) (payload : Bytes) :
    ((Table.Add S t job_id id data done w).2.deliverReply w.registry.num_callbacks payload).log
      = w.log ++ [Invocation.call done t.client_ id (some data)] := by
  rw [deliverReply_log,
    Dispatch_log_of_get _ _ _ _ (by simp only [Table.Add]; exact get_add_self _ _)]
  rfl

theorem serveLast_RunAsync {ID DataT : Type}
    (exec : Store ID → String → ID → Bytes → Store ID × Bytes) (st : Store ID)
    (w : World ID DataT) (command : String) (id : ID) (data : Bytes) (ch : TablePubsub)
    (i : Nat)
    (h : w.context.submitted.getLast? = some (Submission.RunAsync command id data ch i)) :
    serveLast exec st w
      = ((exec st command id data).1, w.deliverReply i (exec st command id data).2) := by
  simp [serveLast, serve, h]

theorem Store_command_add {ID : Type} [DecidableEq ID] (st : Store ID) (id : ID)
    (data : Bytes) : st.command "RAY.TABLE_ADD" id data = (st.write id data, []) := by
  simp [Store.command]

theorem Store_command_lookup {ID : Type} [DecidableEq ID] (st : Store ID) (id : ID)
    (data : Bytes) : st.command "RAY.TABLE_LOOKUP" id data = (st, (st.rows id).getD []) := by
  simp [Store.command]

theorem TestAndUpdateServed_spec {ID : Type} [DecidableEq ID] (S : Schema (TaskTableDataT ID))
    (U : Schema (TaskTableTestAndUpdateT ID)) (t : Table) (job_id id : ID)
    (update : TaskTableTestAndUpdateT ID) (callback : TestAndUpdateCallback)
    (st : Store ID) (w : World ID (TaskTableDataT ID)) (row : Bytes)
    (hacc : w.context.verdict (Submission.RunAsync "RAY.TABLE_TEST_AND_UPDATE" id
        (U.Pack update) t.pubsub_channel_ w.registry.num_callbacks) = Status.OK)
    (hrow : st.rows id = some row)
    (hS : ∀ r, S.UnPack (S.Pack r) = r) (hU : U.UnPack (U.Pack update) = update) :
    (TaskTable.TestAndUpdateServed S U t job_id id update callback (st, w)).1
        = (if ((S.UnPack row).testAndUpdate update).2
           then st.write id (S.Pack ((S.UnPack row).testAndUpdate update).1) else st)
    ∧ (TaskTable.TestAndUpdateServed S U t job_id id update callback (st, w)).2.log
        = w.log ++ [Invocation.callTestAndUpdate callback t.client_ id
            { ((S.UnPack row).testAndUpdate update).1 with
                updated := ((S.UnPack row).testAndUpdate update).2 }
            ((S.UnPack row).testAndUpdate update).2]
    ∧ (TaskTable.TestAndUpdateServed S U t job_id id update callback (st, w)).2.context.verdict
        = w.context.verdict := by
  have hctx : (TaskTable.TestAndUpdate S U t job_id id update callback w).2.context
      = { w.context with submitted := w.context.submitted ++
            [Submission.RunAsync "RAY.TABLE_TEST_AND_UPDATE" id (U.Pack update)
              t.pubsub_channel_ w.registry.num_callbacks] } := submit_accepted _ _ hacc
  have hcmd : Store.taskCommand S U st "RAY.TABLE_TEST_AND_UPDATE" id (U.Pack update)
      = (if ((S.UnPack row).testAndUpdate update).2
           then st.write id (S.Pack ((S.UnPack row).testAndUpdate update).1) else st,
         S.Pack { ((S.UnPack row).testAndUpdate update).1 with
                    updated := ((S.UnPack row).testAndUpdate update).2 }) := by
    simp [Store.taskCommand, hrow, hU]
  unfold TaskTable.TestAndUpdateServed
  rw [serveLast_RunAsync (Store.taskCommand S U) st _ "RAY.TABLE_TEST_AND_UPDATE" id
      (U.Pack update) t.pubsub_channel_ w.registry.num_callbacks (by rw [hctx]; simp), hcmd]
  refine ⟨rfl, ?_, ?_⟩
  · simp only []
    rw [deliverReply_log, Dispatch_log_of_get _ _ _ _
      (by simp only [TaskTable.TestAndUpdate]; exact get_add_self _ _)]
    simp only [TaskTable.TestAndUpdateClosure, hS]
    rfl
  · simp only [World.deliverReply, Dispatch_context, hctx]

theorem testAndUpdate_snd {ID : Type} (cur : TaskTableDataT ID)
    (update : TaskTableTestAndUpdateT ID) :
    (cur.testAndUpdate update).2
      = decide (cur.scheduling_state &&& update.test_state_bitmask ≠ 0) := by
  unfold TaskTableDataT.testAndUpdate
  split <;> simp_all

theorem testAndUpdate_fst_of_match {ID : Type} (cur : TaskTableDataT ID)
    (update : TaskTableTestAndUpdateT ID)
    (h : cur.scheduling_state &&& update.test_state_bitmask ≠ 0) :
    (cur.testAndUpdate update).1
      = { cur with scheduling_state := update.update_state,
                   scheduler_id := update.local_scheduler_id } := by
  simp [TaskTableDataT.testAndUpdate, h]

theorem testAndUpdate_fst_of_no_match {ID : Type} (cur : TaskTableDataT ID)
    (update : TaskTableTestAndUpdateT ID)
    (h : cur.scheduling_state &&& update.test_state_bitmask = 0) :
    (cur.testAndUpdate update).1 = cur := by
  simp [TaskTableDataT.testAndUpdate, h]

theorem taskSchema_roundtrip (r : TaskTableDataT Nat) :
    taskSchema.UnPack (taskSchema.Pack r) = r := by
  cases r with
  | mk s o info u => cases u <;> simp [taskSchema]

theorem updateSchema_roundtrip (u : TaskTableTestAndUpdateT Nat) :
    updateSchema.UnPack (updateSchema.Pack u) = u := by
  cases u
  simp [updateSchema]

theorem perform_dispatch_log {ID DataT : Type} (S : Schema DataT) (t : Table)
    (c : Call ID DataT) (w : World ID DataT) (payload : Bytes) :
    ((Table.perform S t c w).2.Dispatch w.registry.num_callbacks payload).log
      = w.log ++ [match c with
          | Call.Add _ x data done => Invocation.call done t.client_ x (some data)
          | Call.Lookup _ x lookup => Invocation.call lookup none x (some (S.UnPack payload))
          | Call.Subscribe _ client_id subscribe done =>
            if payload = [] then Invocation.call done none client_id none
            else Invocation.call subscribe none client_id (some (S.UnPack payload))] := by
  cases c with
  | Add job_id id data done =>
    simp only [Table.perform]
    rw [Dispatch_log_of_get _ _ _ _ (by simp only [Table.Add]; exact get_add_self _ _)]
    rfl
  | Lookup job_id id lookup =>
    simp only [Table.perform]
    rw [Dispatch_log_of_get _ _ _ _ (by simp only [Table.Lookup]; exact get_add_self _ _)]
    rfl
  | Subscribe job_id client_id subscribe done =>
    simp only [Table.perform]
    rw [Dispatch_log_of_get _ _ _ _ (by simp only [Table.Subscribe]; exact get_add_self _ _),
      SubscribeCallback_apply]
    rfl

theorem TestAndUpdate_dispatch_log {ID : Type} (S : Schema (TaskTableDataT ID))
    (U : Schema (TaskTableTestAndUpdateT ID)) (t : Table) (job_id id : ID)
    (data : TaskTableTestAndUpdateT ID) (callback : TestAndUpdateCallback)
    (w : World ID (TaskTableDataT ID)) (payload : Bytes) :
    ((TaskTable.TestAndUpdate S U t job_id id data callback w).2.Dispatch
        w.registry.num_callbacks payload).log
      = w.log ++ [Invocation.callTestAndUpdate callback t.client_ id (S.UnPack payload)
                    (S.UnPack payload).updated] := by
  rw [Dispatch_log_of_get _ _ _ _
    (by simp only [TaskTable.TestAndUpdate]; exact get_add_self _ _)]
  rfl

/-! ## Claims -/

/-- C1: once `Add(x, r, cb)` has been accepted by the store client and the store has
served it (so that `cb` has been called, with `x` and `r`), a `Lookup(x, cb2)`
that is accepted and served calls `cb2` with the id `x` and a record equal to
`r`, provided decoding inverts encoding on `r`.  The store is the one of
`Store.command`: a read of `x` is answered with the bytes last written under
`x`. -/
theorem C1_Add_then_Lookup {ID DataT : Type} [DecidableEq ID] (S : Schema DataT) (t : Table)
    (job_id job_id2 x : ID) (r : DataT) (cb cb2 : Callback) (w : World ID DataT)
    (st : Store ID)
    (hround : S.UnPack (S.Pack r) = r)
    (hadd : (Table.Add S t job_id x r cb w).1 = Status.OK)
    (hlookup : (Table.Lookup S t job_id2 x cb2
        (serveLast Store.command st (Table.Add S t job_id x r cb w).2).2).1 = Status.OK) :
    (serveLast Store.command st (Table.Add S t job_id x r cb w).2).2.log
        = w.log ++ [Invocation.call cb t.client_ x (some r)]
    ∧ (serveLast Store.command
          (serveLast Store.command st (Table.Add S t job_id x r cb w).2).1
          (Table.Lookup S t job_id2 x cb2
            (serveLast Store.command st (Table.Add S t job_id x r cb w).2).2).2).2.log
        = w.log ++ [Invocation.call cb t.client_ x (some r),
                    Invocation.call cb2 none x (some r)] := by
  have h1 : w.context.verdict (Submission.RunAsync "RAY.TABLE_ADD" x (S.Pack r)
      t.pubsub_channel_ w.registry.num_callbacks) = Status.OK := by
    rw [← hadd]; exact (RAY_RETURN_NOT_OK_OK _).symm
  have hctx : (Table.Add S t job_id x r cb w).2.context
      = { w.context with submitted := w.context.submitted ++
            [Submission.RunAsync "RAY.TABLE_ADD" x (S.Pack r) t.pubsub_channel_
              w.registry.num_callbacks] } := submit_accepted _ _ h1
  have hA : serveLast Store.command st (Table.Add S t job_id x r cb w).2
      = (st.write x (S.Pack r),
         (Table.Add S t job_id x r cb w).2.deliverReply w.registry.num_callbacks []) := by
    rw [serveLast_RunAsync Store.command st _ "RAY.TABLE_ADD" x (S.Pack r) t.pubsub_channel_
      w.registry.num_callbacks (by rw [hctx]; simp), Store_command_add]
  have hlogA : ((Table.Add S t job_id x r cb w).2.deliverReply w.registry.num_callbacks []).log
      = w.log ++ [Invocation.call cb t.client_ x (some r)] :=
    Add_deliverReply_log S t job_id x r cb w []
  rw [hA] at hlookup ⊢
  refine ⟨hlogA, ?_⟩
  simp only [] at hlookup ⊢
  generalize hw2 : (Table.Add S t job_id x r cb w).2.deliverReply w.registry.num_callbacks []
    = w2 at hlookup hlogA ⊢
  have h2 : w2.context.verdict (Submission.RunAsync "RAY.TABLE_LOOKUP" x []
      t.pubsub_channel_ w2.registry.num_callbacks) = Status.OK := by
    rw [← hlookup]; exact (RAY_RETURN_NOT_OK_OK _).symm
  have hctx2 : (Table.Lookup S t job_id2 x cb2 w2).2.context
      = { w2.context with submitted := w2.context.submitted ++
            [Submission.RunAsync "RAY.TABLE_LOOKUP" x [] t.pubsub_channel_
              w2.registry.num_callbacks] } := submit_accepted _ _ h2
  rw [serveLast_RunAsync Store.command _ _ "RAY.TABLE_LOOKUP" x [] t.pubsub_channel_
      w2.registry.num_callbacks (by rw [hctx2]; simp), Store_command_lookup]
  simp only []
  rw [deliverReply_log,
    Dispatch_log_of_get _ _ _ _ (by simp only [Table.Lookup]; exact get_add_self _ _)]
  have hl : (Table.Lookup S t job_id2 x cb2 w2).2.log = w2.log := rfl
  rw [hl, hlogA]
  simp [Table.LookupCallback, Store.write, hround]

/-- Witness for C1: the record 42 added under id 7 and looked up again. -/
theorem C1_Add_then_Lookup_witness :
    natSchema.UnPack (natSchema.Pack 42) = 42
    ∧ (Table.Add natSchema (Table.new (some 9)) 0 7 42 (Callback.mk 1)
        (connectedWorld Nat)).1 = Status.OK
    ∧ (serveLast Store.command
          (serveLast Store.command emptyStore
            (Table.Add natSchema (Table.new (some 9)) 0 7 42 (Callback.mk 1)
              (connectedWorld Nat)).2).1
          (Table.Lookup natSchema (Table.new (some 9)) 0 7 (Callback.mk 2)
            (serveLast Store.command emptyStore
              (Table.Add natSchema (Table.new (some 9)) 0 7 42 (Callback.mk 1)
                (connectedWorld Nat)).2).2).2).2.log
        = [Invocation.call (Callback.mk 1) (some 9) 7 (some 42),
           Invocation.call (Callback.mk 2) none 7 (some 42)] :=
  ⟨rfl, rfl,
   (C1_Add_then_Lookup natSchema (Table.new (some 9)) 0 0 7 42 (Callback.mk 1) (Callback.mk 2)
      (connectedWorld Nat) emptyStore rfl rfl rfl).2⟩

/-- C2: after `Add(job, id, data, done)`, the store client holds (when it accepted it)
the write command carrying the index returned by the registry, and dispatching
that index with any reply payload calls `done` exactly once, with the table's
client, the id given to Add and the record given to Add; the payload plays no
part. -/
theorem C2_Add_callback_original_record {ID DataT : Type} (S : Schema DataT) (t : Table)
    (job_id id : ID) (data : DataT) (done : Callback) (w : World ID DataT) (payload : Bytes) :
    (Table.Add S t job_id id data done w).2.context
        = (w.context.submit (Submission.RunAsync "RAY.TABLE_ADD" id (S.Pack data)
            t.pubsub_channel_ w.registry.num_callbacks)).2
      ∧ ((Table.Add S t job_id id data done w).2.deliverReply
            w.registry.num_callbacks payload).log
        = w.log ++ [Invocation.call done t.client_ id (some data)] := by
  exact ⟨rfl, Add_deliverReply_log S t job_id id data done w payload⟩

/-- C3: after `Subscribe(job, filter_id, subscribe, done)`, the store client holds (when
it accepted it) the subscription carrying the index returned by the registry,
and every payload delivered to that index produces exactly one call: `done`
with the filter id and a null record when the payload is empty, `subscribe`
with the filter id and the decoded payload otherwise.  The entry is persistent:
the same holds for each payload of any sequence of deliveries. -/
theorem C3_Subscribe_empty_vs_data {ID DataT : Type} (S : Schema DataT) (t : Table)
    (job_id filter_id : ID) (subscribe done : Callback) (w : World ID DataT)
    (payload : Bytes) (payloads : List Bytes) :
    (Table.Subscribe S t job_id filter_id subscribe done w).2.context
        = (w.context.submit (Submission.SubscribeAsync filter_id t.pubsub_channel_
            w.registry.num_callbacks)).2
      ∧ ((Table.Subscribe S t job_id filter_id subscribe done w).2.deliverEvent
            w.registry.num_callbacks payload).log
        = w.log ++ [if payload = [] then Invocation.call done none filter_id none
                    else Invocation.call subscribe none filter_id (some (S.UnPack payload))]
      ∧ ((Table.Subscribe S t job_id filter_id subscribe done w).2.deliverEvents
            w.registry.num_callbacks payloads).log
        = w.log ++ payloads.map (fun p =>
            if p = [] then Invocation.call done none filter_id none
            else Invocation.call subscribe none filter_id (some (S.UnPack p))) := by
  refine ⟨rfl, ?_, ?_⟩
  · unfold World.deliverEvent
    rw [Dispatch_log_of_get _ _ _ _ (by simp only [Table.Subscribe]; exact get_add_self _ _),
      SubscribeCallback_apply]
    rfl
  · rw [deliverEvents_log _ _ (SubscribeCallback_apply S done _) _ _ _
      (by simp only [Table.Subscribe]; exact get_add_self _ _)]
    rfl

/-- C4, as amended: for one Subscribe call and a sequence of deliveries that begins with
the empty installation payload and continues with non-empty published
payloads, the calls made are: `done` once, first, with the filter id and a null
record; then, for each published payload in order, `subscribe` with the filter
id and the decoded payload, and never `done` again. -/
theorem C4_installation_then_data {ID DataT : Type} (S : Schema DataT) (t : Table)
    (job_id filter_id : ID) (subscribe done : Callback) (w : World ID DataT)
    (published : List Bytes) (h : ∀ p ∈ published, p ≠ []) :
    ((Table.Subscribe S t job_id filter_id subscribe done w).2.deliverEvents
        w.registry.num_callbacks ([] :: published)).log
      = w.log ++ Invocation.call done none filter_id none ::
          published.map (fun p => Invocation.call subscribe none filter_id (some (S.UnPack p))) := by
  rw [deliverEvents_log _ _ (SubscribeCallback_apply S done _) _ _ _
    (by simp only [Table.Subscribe]; exact get_add_self _ _)]
  have hlog : (Table.Subscribe S t job_id filter_id subscribe done w).2.log = w.log := rfl
  rw [hlog, List.map_cons]
  congr 2
  apply List.map_congr_left
  intro p hp
  simp [h p hp]

/-- Counterexample to C4 as stated: when a payload delivered after the installation
event is itself empty, `done` is called a second time and `subscribe` is not
called for that delivery. -/
theorem C4_counterexample_second_empty_payload :
    ((Table.Subscribe natSchema (Table.new none) 0 3 (Callback.mk 1) (Callback.mk 2)
          (connectedWorld Nat)).2.deliverEvents 0 [[], []]).log
        = [Invocation.call (Callback.mk 2) none 3 none,
           Invocation.call (Callback.mk 2) none 3 none]
    ∧ (((Table.Subscribe natSchema (Table.new none) 0 3 (Callback.mk 1) (Callback.mk 2)
          (connectedWorld Nat)).2.deliverEvents 0 [[], []]).log.filter
        (fun e => decide (e = Invocation.call (Callback.mk 2) none 3 none))).length = 2 := by
  constructor <;> rfl

/-- Witness for C4: the installation event followed by the payloads `[5]` and `[7]`. -/
theorem C4_installation_then_data_witness :
    (∀ p ∈ [[5], [7]], p ≠ ([] : Bytes))
    ∧ ((Table.Subscribe natSchema (Table.new none) 0 3 (Callback.mk 1) (Callback.mk 2)
          (connectedWorld Nat)).2.deliverEvents 0 [[], [5], [7]]).log
        = [Invocation.call (Callback.mk 2) none 3 none,
           Invocation.call (Callback.mk 1) none 3 (some 5),
           Invocation.call (Callback.mk 1) none 3 (some 7)] :=
  ⟨by decide,
   C4_installation_then_data natSchema (Table.new none) 0 3 (Callback.mk 1) (Callback.mk 2)
     (connectedWorld Nat) [[5], [7]] (by decide)⟩

/-- C5: a TestAndUpdate with test bitmask `B` and update state `U`, accepted by the store
client and served by the store of §4.4 against a task whose row decodes to a
record with scheduling state `current`, calls the callback once with a record
and a flag such that the flag is true and the record's state is `U` if and only
if `current &&& B ≠ 0`; when `current &&& B = 0` the flag is false, the record
delivered has the state, scheduler and task specification of the stored one, and
the rows of the store are unchanged.  In particular, for a task in state WAITING
(a non-zero flag sharing no bit with SCHEDULED), TestAndUpdate(test = WAITING,
update = SCHEDULED) delivers updated = true with state SCHEDULED, and the same
call made again delivers updated = false with state SCHEDULED. -/
theorem C5_TestAndUpdate_bitmask {ID : Type} [DecidableEq ID]
    (S : Schema (TaskTableDataT ID)) (U : Schema (TaskTableTestAndUpdateT ID)) (t : Table)
    (job_id task_id caller : ID) (update : TaskTableTestAndUpdateT ID)
    (callback : TestAndUpdateCallback) (w : World ID (TaskTableDataT ID))
    (st stW : Store ID) (row rowW : Bytes) (WAITING SCHEDULED : Nat)
    (hS : ∀ r, S.UnPack (S.Pack r) = r) (hU : ∀ u, U.UnPack (U.Pack u) = u)
    (hacc : ∀ s, w.context.verdict s = Status.OK)
    (hrow : st.rows task_id = some row)
    (hrowW : stW.rows task_id = some rowW)
    (hT : (S.UnPack rowW).scheduling_state = WAITING)
    (hW : WAITING ≠ 0) (hSW : SCHEDULED &&& WAITING = 0) :
    (∃ task updated,
      (TaskTable.TestAndUpdateServed S U t job_id task_id update callback (st, w)).2.log
          = w.log ++ [Invocation.callTestAndUpdate callback t.client_ task_id task updated]
      ∧ ((updated = true ∧ task.scheduling_state = update.update_state)
          ↔ (S.UnPack row).scheduling_state &&& update.test_state_bitmask ≠ 0)
      ∧ ((S.UnPack row).scheduling_state &&& update.test_state_bitmask = 0 →
          updated = false
          ∧ task.scheduling_state = (S.UnPack row).scheduling_state
          ∧ task.scheduler_id = (S.UnPack row).scheduler_id
          ∧ task.task_info = (S.UnPack row).task_info
          ∧ (TaskTable.TestAndUpdateServed S U t job_id task_id update callback
              (st, w)).1.rows = st.rows))
    ∧ (∃ first second,
      (TaskTable.TestAndUpdateServed S U t job_id task_id
          { local_scheduler_id := caller, test_state_bitmask := WAITING,
            update_state := SCHEDULED } callback
          (TaskTable.TestAndUpdateServed S U t job_id task_id
            { local_scheduler_id := caller, test_state_bitmask := WAITING,
              update_state := SCHEDULED } callback (stW, w))).2.log
          = w.log ++ [Invocation.callTestAndUpdate callback t.client_ task_id first true,
                      Invocation.callTestAndUpdate callback t.client_ task_id second false]
      ∧ first.scheduling_state = SCHEDULED ∧ second.scheduling_state = SCHEDULED) := by
  constructor
  · obtain ⟨h1, h2, -⟩ := TestAndUpdateServed_spec S U t job_id task_id update callback st w row
      (hacc _) hrow hS (hU update)
    refine ⟨_, _, h2, ?_, ?_⟩
    · rw [testAndUpdate_snd]
      constructor
      · intro h; simpa using h.1
      · intro h
        refine ⟨by simpa using h, ?_⟩
        rw [testAndUpdate_fst_of_match _ _ h]
    · intro h
      rw [h1, testAndUpdate_snd, testAndUpdate_fst_of_no_match _ _ h]
      simp [h]
  · have hm : (S.UnPack rowW).scheduling_state &&& WAITING ≠ 0 := by
      rw [hT, Nat.and_self]; exact hW
    obtain ⟨h1, h2, h3⟩ := TestAndUpdateServed_spec S U t job_id task_id
      { local_scheduler_id := caller, test_state_bitmask := WAITING, update_state := SCHEDULED }
      callback stW w rowW (hacc _) hrowW hS (hU _)
    rw [testAndUpdate_snd, testAndUpdate_fst_of_match _ _ hm] at h1 h2
    simp only [ne_eq, hm, not_false_eq_true, decide_True, if_true] at h1 h2
    generalize TaskTable.TestAndUpdateServed S U t job_id task_id
      { local_scheduler_id := caller, test_state_bitmask := WAITING, update_state := SCHEDULED }
      callback (stW, w) = p1 at h1 h2 h3
    have hrow1 : p1.1.rows task_id
        = some (S.Pack { S.UnPack rowW with scheduling_state := SCHEDULED,
                                            scheduler_id := caller }) := by
      rw [h1]; simp [Store.write]
    obtain ⟨-, k2, -⟩ := TestAndUpdateServed_spec S U t job_id task_id
      { local_scheduler_id := caller, test_state_bitmask := WAITING, update_state := SCHEDULED }
      callback p1.1 p1.2 _ (by rw [h3]; exact hacc _) hrow1 hS (hU _)
    have hn : ({ S.UnPack rowW with scheduling_state := SCHEDULED,
                                    scheduler_id := caller } : TaskTableDataT ID).scheduling_state
        &&& WAITING = 0 := hSW
    rw [hS, testAndUpdate_snd, testAndUpdate_fst_of_no_match _ _ hn, h2] at k2
    simp only [hSW, ne_eq, not_true_eq_false, decide_False] at k2
    exact ⟨{ S.UnPack rowW with scheduling_state := SCHEDULED, scheduler_id := caller,
                                updated := true },
      { S.UnPack rowW with scheduling_state := SCHEDULED, scheduler_id := caller,
                           updated := false },
      k2.trans (by simp), rfl, rfl⟩

/-- Witness for C5: the task 7 stored in state WAITING = 1, tested against WAITING and
updated to SCHEDULED = 2 by scheduler 4, twice. -/
theorem C5_TestAndUpdate_bitmask_witness :
    (∀ s, (connectedWorld (TaskTableDataT Nat)).context.verdict s = Status.OK)
    ∧ (emptyStore.write 7 [1, 0, 0]).rows 7 = some [1, 0, 0]
    ∧ (taskSchema.UnPack [1, 0, 0]).scheduling_state = 1
    ∧ (1 : Nat) ≠ 0
    ∧ (2 : Nat) &&& 1 = 0
    ∧ (∃ first second,
        (TaskTable.TestAndUpdateServed taskSchema updateSchema (TaskTable.new (some 9)) 0 7
            { local_scheduler_id := 4, test_state_bitmask := 1, update_state := 2 }
            (TestAndUpdateCallback.mk 1)
            (TaskTable.TestAndUpdateServed taskSchema updateSchema (TaskTable.new (some 9)) 0 7
              { local_scheduler_id := 4, test_state_bitmask := 1, update_state := 2 }
              (TestAndUpdateCallback.mk 1)
              (emptyStore.write 7 [1, 0, 0], connectedWorld (TaskTableDataT Nat)))).2.log
          = (connectedWorld (TaskTableDataT Nat)).log
              ++ [Invocation.callTestAndUpdate (TestAndUpdateCallback.mk 1) (some 9) 7 first true,
                  Invocation.callTestAndUpdate (TestAndUpdateCallback.mk 1) (some 9) 7 second
                    false]
        ∧ first.scheduling_state = 2 ∧ second.scheduling_state = 2) :=
  ⟨fun _ => rfl, rfl, rfl, by decide, by decide,
   (C5_TestAndUpdate_bitmask taskSchema updateSchema (TaskTable.new (some 9)) 0 7 4
      { local_scheduler_id := 4, test_state_bitmask := 1, update_state := 2 }
      (TestAndUpdateCallback.mk 1) (connectedWorld (TaskTableDataT Nat))
      (emptyStore.write 7 [1, 0, 0]) (emptyStore.write 7 [1, 0, 0]) [1, 0, 0] [1, 0, 0] 1 2
      taskSchema_roundtrip updateSchema_roundtrip (fun _ => rfl) rfl rfl rfl
      (by decide) (by decide)).2⟩

/-- C6: after `TestAndUpdate(job, id, data, callback)`, the store client holds (when it
accepted it) the conditional-update command carrying the index returned by the
registry, and dispatching that index with any reply payload calls `callback`
exactly once, with the task id given to TestAndUpdate, the record decoded from
the reply and the `updated` field of that decoded reply. -/
theorem C6_TestAndUpdate_callback {ID : Type} (S : Schema (TaskTableDataT ID))
    (U : Schema (TaskTableTestAndUpdateT ID)) (t : Table) (job_id id : ID)
    (data : TaskTableTestAndUpdateT ID) (callback : TestAndUpdateCallback)
    (w : World ID (TaskTableDataT ID)) (payload : Bytes) :
    (TaskTable.TestAndUpdate S U t job_id id data callback w).2.context
        = (w.context.submit (Submission.RunAsync "RAY.TABLE_TEST_AND_UPDATE" id (U.Pack data)
            t.pubsub_channel_ w.registry.num_callbacks)).2
      ∧ ((TaskTable.TestAndUpdate S U t job_id id data callback w).2.deliverReply
            w.registry.num_callbacks payload).log
        = w.log ++ [Invocation.callTestAndUpdate callback t.client_ id (S.UnPack payload)
                      (S.UnPack payload).updated] := by
  refine ⟨rfl, ?_⟩
  rw [deliverReply_log,
    Dispatch_log_of_get _ _ _ _ (by simp only [TaskTable.TestAndUpdate]; exact get_add_self _ _)]
  rfl

/-- C7: each of Add, Lookup, Subscribe and TestAndUpdate returns exactly the status that
the store client returned for its submission (so it fails iff the submission
fails, with that failure, and is OK otherwise), and the log of callback calls is
the same after the call as before it. -/
theorem C7_status_of_submission {ID DataT : Type} (S : Schema DataT)
    (ST : Schema (TaskTableDataT ID)) (U : Schema (TaskTableTestAndUpdateT ID)) (t : Table)
    (job_id id : ID) (data : DataT) (update : TaskTableTestAndUpdateT ID)
    (done lookup subscribe : Callback) (callback : TestAndUpdateCallback)
    (w : World ID DataT) (wt : World ID (TaskTableDataT ID)) :
    ((Table.Add S t job_id id data done w).1
        = w.context.verdict (Submission.RunAsync "RAY.TABLE_ADD" id (S.Pack data)
            t.pubsub_channel_ w.registry.num_callbacks)
      ∧ (Table.Add S t job_id id data done w).2.log = w.log)
    ∧ ((Table.Lookup S t job_id id lookup w).1
        = w.context.verdict (Submission.RunAsync "RAY.TABLE_LOOKUP" id []
            t.pubsub_channel_ w.registry.num_callbacks)
      ∧ (Table.Lookup S t job_id id lookup w).2.log = w.log)
    ∧ ((Table.Subscribe S t job_id id subscribe done w).1
        = w.context.verdict (Submission.SubscribeAsync id t.pubsub_channel_
            w.registry.num_callbacks)
      ∧ (Table.Subscribe S t job_id id subscribe done w).2.log = w.log)
    ∧ ((TaskTable.TestAndUpdate ST U t job_id id update callback wt).1
        = wt.context.verdict (Submission.RunAsync "RAY.TABLE_TEST_AND_UPDATE" id
            (U.Pack update) t.pubsub_channel_ wt.registry.num_callbacks)
      ∧ (TaskTable.TestAndUpdate ST U t job_id id update callback wt).2.log = wt.log) := by
  refine ⟨⟨?_, rfl⟩, ⟨?_, rfl⟩, ⟨rfl, rfl⟩, ⟨?_, rfl⟩⟩
  · exact RAY_RETURN_NOT_OK_OK _
  · exact RAY_RETURN_NOT_OK_OK _
  · exact RAY_RETURN_NOT_OK_OK _

/-- C8, as amended: when the store client rejects the submission made by Add, Lookup,
Subscribe or TestAndUpdate, no callback is called during the call and the store
client holds no new submission (so the store has no index to dispatch for the
request); the registry, however, keeps the entry registered for the request at
the index that was handed to the store client: the next index has advanced by
one, the entries at all other indices are as before, and a dispatch of that
index would call the callback the caller supplied, exactly once: for Add,
`done` with the table's client, the id and the record given to Add; for Lookup,
`lookup` with a null client, the id and the decoded payload; for Subscribe,
`done` with a null client, the filter id and a null record on an empty payload
and `subscribe` with a null client, the filter id and the decoded payload
otherwise; for TestAndUpdate, `callback` with the table's client, the task id,
the decoded payload and its `updated` field. -/
theorem C8_rejected_submission {ID DataT : Type} (S : Schema DataT)
    (ST : Schema (TaskTableDataT ID)) (U : Schema (TaskTableTestAndUpdateT ID)) (t : Table)
    (c : Call ID DataT) (job_id id : ID) (update : TaskTableTestAndUpdateT ID)
    (callback : TestAndUpdateCallback) (w : World ID DataT)
    (wt : World ID (TaskTableDataT ID))
    (h : (Table.perform S t c w).1.ok = false)
    (ht : (TaskTable.TestAndUpdate ST U t job_id id update callback wt).1.ok = false) :
    ((Table.perform S t c w).2.log = w.log
      ∧ (Table.perform S t c w).2.context = w.context
      ∧ (Table.perform S t c w).2.registry.num_callbacks = w.registry.num_callbacks + 1
      ∧ ((Table.perform S t c w).2.registry.get w.registry.num_callbacks).isSome = true
      ∧ (∀ i, i ≠ w.registry.num_callbacks →
          (Table.perform S t c w).2.registry.get i = w.registry.get i)
      ∧ ∀ payload,
          ((Table.perform S t c w).2.Dispatch w.registry.num_callbacks payload).log
            = w.log ++ [match c with
                | Call.Add _ x data done => Invocation.call done t.client_ x (some data)
                | Call.Lookup _ x lookup =>
                  Invocation.call lookup none x (some (S.UnPack payload))
                | Call.Subscribe _ client_id subscribe done =>
                  if payload = [] then Invocation.call done none client_id none
                  else Invocation.call subscribe none client_id (some (S.UnPack payload))])
    ∧ ((TaskTable.TestAndUpdate ST U t job_id id update callback wt).2.log = wt.log
      ∧ (TaskTable.TestAndUpdate ST U t job_id id update callback wt).2.context = wt.context
      ∧ (TaskTable.TestAndUpdate ST U t job_id id update callback wt).2.registry.num_callbacks
          = wt.registry.num_callbacks + 1
      ∧ ((TaskTable.TestAndUpdate ST U t job_id id update callback wt).2.registry.get
          wt.registry.num_callbacks).isSome = true
      ∧ (∀ i, i ≠ wt.registry.num_callbacks →
          (TaskTable.TestAndUpdate ST U t job_id id update callback wt).2.registry.get i
            = wt.registry.get i)
      ∧ ∀ payload,
          ((TaskTable.TestAndUpdate ST U t job_id id update callback wt).2.Dispatch
              wt.registry.num_callbacks payload).log
            = wt.log ++ [Invocation.callTestAndUpdate callback t.client_ id
                (ST.UnPack payload) (ST.UnPack payload).updated]) := by
  constructor
  · obtain ⟨f, hf⟩ := perform_registry S t c w
    refine ⟨perform_log S t c w, perform_rejected S t c w h, ?_, ?_, ?_,
      perform_dispatch_log S t c w⟩
    · rw [hf]; rfl
    · rw [hf, get_add_self]; rfl
    · intro i hi
      rw [hf]; exact get_add_other _ _ i hi
  · refine ⟨rfl, ?_, rfl, ?_, ?_, TestAndUpdate_dispatch_log ST U t job_id id update callback wt⟩
    · simp only [TaskTable.TestAndUpdate, RAY_RETURN_NOT_OK_OK] at ht ⊢
      exact submit_rejected _ _ ht
    · simp only [TaskTable.TestAndUpdate]
      rw [get_add_self]; rfl
    · intro i hi
      simp only [TaskTable.TestAndUpdate]
      exact get_add_other _ _ i hi

/-- Counterexample to C8 as stated: Add on a process whose store client is not
connected returns the failure, yet the registry, which had no entry at index 0
before the call, holds one afterwards, and dispatching index 0 calls the caller's
callback. -/
theorem C8_counterexample_entry_remains :
    (Table.Add natSchema (Table.new (some 9)) 0 7 42 (Callback.mk 1)
        (disconnectedWorld Nat)).1 = Status.Failure 1 "not connected"
    ∧ ((disconnectedWorld Nat).registry.get 0).isSome = false
    ∧ ((Table.Add natSchema (Table.new (some 9)) 0 7 42 (Callback.mk 1)
        (disconnectedWorld Nat)).2.registry.get 0).isSome = true
    ∧ (Table.Add natSchema (Table.new (some 9)) 0 7 42 (Callback.mk 1)
        (disconnectedWorld Nat)).2.registry.num_callbacks
        ≠ (disconnectedWorld Nat).registry.num_callbacks
    ∧ ((Table.Add natSchema (Table.new (some 9)) 0 7 42 (Callback.mk 1)
        (disconnectedWorld Nat)).2.Dispatch 0 []).log
        = [Invocation.call (Callback.mk 1) (some 9) 7 (some 42)] := by
  refine ⟨rfl, rfl, rfl, by decide, rfl⟩

/-- Witness for C8: an Add, a Lookup and a TestAndUpdate on a process whose store
client is not connected. -/
theorem C8_rejected_submission_witness :
    (Table.perform natSchema (Table.new (some 9)) (Call.Lookup 0 7 (Callback.mk 1))
        (disconnectedWorld Nat)).1.ok = false
    ∧ (TaskTable.TestAndUpdate taskSchema updateSchema (TaskTable.new (some 9)) 0 7
        { local_scheduler_id := 4, test_state_bitmask := 1, update_state := 2 }
        (TestAndUpdateCallback.mk 1) (disconnectedWorld (TaskTableDataT Nat))).1.ok = false
    ∧ (Table.perform natSchema (Table.new (some 9)) (Call.Lookup 0 7 (Callback.mk 1))
        (disconnectedWorld Nat)).2.registry.num_callbacks
        = (disconnectedWorld Nat).registry.num_callbacks + 1
    ∧ ((Table.perform natSchema (Table.new (some 9)) (Call.Lookup 0 7 (Callback.mk 1))
        (disconnectedWorld Nat)).2.Dispatch (disconnectedWorld Nat).registry.num_callbacks
          [42]).log
        = (disconnectedWorld Nat).log
            ++ [Invocation.call (Callback.mk 1) none 7 (some (natSchema.UnPack [42]))]
    ∧ (TaskTable.TestAndUpdate taskSchema updateSchema (TaskTable.new (some 9)) 0 7
        { local_scheduler_id := 4, test_state_bitmask := 1, update_state := 2 }
        (TestAndUpdateCallback.mk 1) (disconnectedWorld (TaskTableDataT Nat))).2.context
        = (disconnectedWorld (TaskTableDataT Nat)).context :=
  ⟨rfl, rfl,
   (C8_rejected_submission natSchema taskSchema updateSchema (Table.new (some 9))
      (Call.Lookup 0 7 (Callback.mk 1)) 0 7
      { local_scheduler_id := 4, test_state_bitmask := 1, update_state := 2 }
      (TestAndUpdateCallback.mk 1) (disconnectedWorld Nat)
      (disconnectedWorld (TaskTableDataT Nat)) rfl rfl).1.2.2.1,
   (C8_rejected_submission natSchema taskSchema updateSchema (Table.new (some 9))
      (Call.Lookup 0 7 (Callback.mk 1)) 0 7
      { local_scheduler_id := 4, test_state_bitmask := 1, update_state := 2 }
      (TestAndUpdateCallback.mk 1) (disconnectedWorld Nat)
      (disconnectedWorld (TaskTableDataT Nat)) rfl rfl).1.2.2.2.2.2 [42],
   (C8_rejected_submission natSchema taskSchema updateSchema (Table.new (some 9))
      (Call.Lookup 0 7 (Callback.mk 1)) 0 7
      { local_scheduler_id := 4, test_state_bitmask := 1, update_state := 2 }
      (TestAndUpdateCallback.mk 1) (disconnectedWorld Nat)
      (disconnectedWorld (TaskTableDataT Nat)) rfl rfl).2.2.1⟩

/-- C9: a plain `Table` is constructed with channel NO_PUBLISH, an `ObjectTable` with
OBJECT and a `TaskTable` with TASK; and whatever sequence of Add, Lookup,
Subscribe (and, on a task table, TestAndUpdate) calls is made on a table, every
command and subscription those calls hand to the store client carries the
channel the table was constructed with. -/
theorem C9_channel_fixed_at_construction {ID DataT : Type} (S : Schema DataT)
    (ST : Schema (TaskTableDataT ID)) (U : Schema (TaskTableTestAndUpdateT ID))
    (client : AsyncGcsClientPtr) (calls : List (Call ID DataT))
    (objectCalls : List (Call ID DataT)) (taskCalls : List (TaskCall ID))
    (w : World ID DataT) (wt : World ID (TaskTableDataT ID)) :
    (Table.new client).pubsub_channel_ = TablePubsub.NO_PUBLISH
    ∧ (ObjectTable.new client).pubsub_channel_ = TablePubsub.OBJECT
    ∧ (TaskTable.new client).pubsub_channel_ = TablePubsub.TASK
    ∧ (∃ fresh, (Table.run S (Table.new client) calls w).context.submitted
          = w.context.submitted ++ fresh
        ∧ ∀ s ∈ fresh, s.pubsub_channel = TablePubsub.NO_PUBLISH)
    ∧ (∃ fresh, (Table.run S (ObjectTable.new client) objectCalls w).context.submitted
          = w.context.submitted ++ fresh
        ∧ ∀ s ∈ fresh, s.pubsub_channel = TablePubsub.OBJECT)
    ∧ (∃ fresh, (TaskTable.run ST U (TaskTable.new client) taskCalls wt).context.submitted
          = wt.context.submitted ++ fresh
        ∧ ∀ s ∈ fresh, s.pubsub_channel = TablePubsub.TASK) :=
  ⟨rfl, rfl, rfl, run_submitted S (Table.new client) calls w,
    run_submitted S (ObjectTable.new client) objectCalls w,
    taskRun_submitted ST U (TaskTable.new client) taskCalls wt⟩

/-- C10: the client handle passed to the caller's callback.  The completion callbacks
of Add and of TestAndUpdate pass the table's `client_`; the callback of Lookup
and both callbacks of Subscribe (`done` on an empty payload, `subscribe`
otherwise) pass the null handle. -/
theorem C10_client_handle_by_operation {ID DataT : Type} (S : Schema DataT)
    (ST : Schema (TaskTableDataT ID)) (U : Schema (TaskTableTestAndUpdateT ID)) (t : Table)
    (job_id id : ID) (data : DataT) (update : TaskTableTestAndUpdateT ID)
    (done lookup subscribe : Callback) (callback : TestAndUpdateCallback)
    (w : World ID DataT) (wt : World ID (TaskTableDataT ID)) (payload event : Bytes) :
    ((Table.Add S t job_id id data done w).2.Dispatch w.registry.num_callbacks payload).log
        = w.log ++ [Invocation.call done t.client_ id (some data)]
    ∧ ((TaskTable.TestAndUpdate ST U t job_id id update callback wt).2.Dispatch
          wt.registry.num_callbacks payload).log
        = wt.log ++ [Invocation.callTestAndUpdate callback t.client_ id (ST.UnPack payload)
                       (ST.UnPack payload).updated]
    ∧ ((Table.Lookup S t job_id id lookup w).2.Dispatch w.registry.num_callbacks payload).log
        = w.log ++ [Invocation.call lookup none id (some (S.UnPack payload))]
    ∧ ((Table.Subscribe S t job_id id subscribe done w).2.Dispatch
          w.registry.num_callbacks event).log
        = w.log ++ [if event = [] then Invocation.call done none id none
                    else Invocation.call subscribe none id (some (S.UnPack event))] := by
  refine ⟨?_, ?_, ?_, ?_⟩
  · rw [Dispatch_log_of_get _ _ _ _ (by simp only [Table.Add]; exact get_add_self _ _)]
    rfl
  · rw [Dispatch_log_of_get _ _ _ _
      (by simp only [TaskTable.TestAndUpdate]; exact get_add_self _ _)]
    rfl
  · rw [Dispatch_log_of_get _ _ _ _ (by simp only [Table.Lookup]; exact get_add_self _ _)]
    rfl
  · rw [Dispatch_log_of_get _ _ _ _ (by simp only [Table.Subscribe]; exact get_add_self _ _)]
    rw [SubscribeCallback_apply]
    rfl

end gcs
end ray
